import Mathlib

/-!
# Verification of the julep task-execution core (prompt step, tool formatting,
# task validation, transition records)

Shallow embedding of the relevant parts of:
* `agents-api/agents_api/activities/task_steps/prompt_step.py`
* `agents-api/agents_api/autogen/openapi_model.py`
* `agents-api/agents_api/autogen/Executions.py`

Python dictionaries and JSON-like values are embedded as the `Value` type,
`None` as `Option.none`, exceptions (`ApplicationError`, `AttributeError`,
assertion failures) as the `Except PyErr` monad.
-/

namespace Julep

/-- A JSON-like Python value: the payloads flowing through the prompt step. -/
inductive Value where
  | vnone : Value
  | vbool : Bool → Value
  | vint : Int → Value
  | vstr : String → Value
  | vlist : List Value → Value
  | vdict : List (String × Value) → Value

/-- Exceptions raised by the embedded code. `applicationError` mirrors
`temporalio.exceptions.ApplicationError`, `attributeError` mirrors a host
`AttributeError` (attribute access on `None`), `assertionError` a failed
`assert`, `typeError` iterating `None`. -/
inductive PyErr where
  | applicationError : String → PyErr
  | attributeError : PyErr
  | assertionError : String → PyErr
  | typeError : PyErr
deriving Repr, BEq, DecidableEq

/-! ## Transition records (`autogen/Executions.py`, class `Transition`) -/

/-- The admitted values of `Transition.type` in `Executions.py` (line 86):
`Literal["finish", "wait", "error", "step", "cancelled"]`. -/
def transitionTypeLiterals : List String :=
  ["finish", "wait", "error", "step", "cancelled"]

/-- Whether a string validates as a `Transition.type` value: pydantic accepts
exactly the members of the `Literal`. -/
def transition_type_ok (s : String) : Bool :=
  transitionTypeLiterals.contains s

/-- The transition-type vocabulary as the spec states it
("type ∈ \x7binit, step, wait, resume, finish, error, cancelled\x7d"). -/
def specTransitionTypes : List String :=
  ["init", "step", "wait", "resume", "finish", "error", "cancelled"]

/-! ## Tools

`autogen/Tools.py` is not among the provided source files, so the record
shapes of the tool variants are modelled from the spec ("Tagged union over
exactly one of five populated variants: function, system, integration,
api_call, or a model-native kind (computer_20241022, bash_20241022,
text_editor_20241022)").  The functions over them (`type_property`,
`format_tool`, `_get_integration_arguments`) are embedded from the source. -/

/-- Modelled from the spec: a `function` tool variant; `parameters` is the
declared JSON schema (a Python value, `None` when absent). -/
structure FunctionDef where
  parameters : Value

/-- Modelled from the spec: a `system` tool variant naming a handler. -/
structure SystemDef where
  resource : String
  operation : String

/-- Modelled from the spec: an `integration` tool variant (provider and
optional method; the call-level arguments do not matter to the formatter). -/
structure IntegrationDef where
  provider : String
  method : Option String

/-- Modelled from the spec: an `api_call` tool variant; `schema_` is the
declared request schema. -/
structure ApiCallDef where
  schema_ : Value

/-- Modelled from the spec: the `computer_20241022` model-native variant with
display dimensions. -/
structure ComputerDef where
  display_width_px : Int
  display_height_px : Int
  display_number : Option Int

/-- Modelled from the spec: a `Tool` record.  Exactly which variant fields are
populated determines the tool's kind; the two parameter-less model-native
kinds are plain `Unit` markers. -/
structure Tool where
  name : String
  description : Option String
  function : Option FunctionDef := none
  system : Option SystemDef := none
  integration : Option IntegrationDef := none
  api_call : Option ApiCallDef := none
  computer_20241022 : Option ComputerDef := none
  bash_20241022 : Option Unit := none
  text_editor_20241022 : Option Unit := none

/-- `openapi_model.py`, `type_property` (lines 94–105): the derived `type`
tag patched onto `Tool` as a computed property.  It tests only the four
non-native variant fields and yields Python `None` otherwise. -/
def type_property (t : Tool) : Option String :=
  if t.function.isSome then some "function"
  else if t.integration.isSome then some "integration"
  else if t.system.isSome then some "system"
  else if t.api_call.isSome then some "api_call"
  else none

/-- `tool.type` as used inside `prompt_step.py`: after the patch in
`openapi_model.py` (line 112) the attribute is `type_property`. -/
def Tool.type (t : Tool) : Option String := type_property t

/-- The populated variant fields of a tool, by name. -/
def populatedVariants (t : Tool) : List String :=
  (if t.function.isSome then ["function"] else [])
    ++ (if t.system.isSome then ["system"] else [])
    ++ (if t.integration.isSome then ["integration"] else [])
    ++ (if t.api_call.isSome then ["api_call"] else [])
    ++ (if t.computer_20241022.isSome then ["computer_20241022"] else [])
    ++ (if t.bash_20241022.isSome then ["bash_20241022"] else [])
    ++ (if t.text_editor_20241022.isSome then ["text_editor_20241022"] else [])

/-- The tool's kind as the spec words it: the name of the (unique) populated
variant among the five kinds, model-native kinds included. -/
def specToolKind (t : Tool) : Option String :=
  if t.function.isSome then some "function"
  else if t.system.isSome then some "system"
  else if t.integration.isSome then some "integration"
  else if t.api_call.isSome then some "api_call"
  else if t.computer_20241022.isSome then some "computer_20241022"
  else if t.bash_20241022.isSome then some "bash_20241022"
  else if t.text_editor_20241022.isSome then some "text_editor_20241022"
  else none

/-! ## Integration argument schemas (`prompt_step.py`, lines 47–94)

`_get_integration_arguments` resolves the provider (and, for `browserbase`,
the method) through `providers_map` to an `*IntegrationDef` class and reads
its declared `arguments` model.  The classes live in the absent
`autogen/Tools.py`, so their declared argument models are a parameter
`defs : String → ArgModel`, keyed by the class names that appear in the
source. -/

/-- Modelled from the spec: the declared `arguments` attribute of an
integration-def class — `absent` for `None`, `model` for a pydantic model
(field name and annotation per field), `dict` for a plain mapping. -/
inductive ArgModel where
  | absent : ArgModel
  | model : List (String × String) → ArgModel
  | dict : List (String × Value) → ArgModel

/-- An entry of `providers_map`: either an integration-def class (named), or a
method-keyed sub-map of classes (the `browserbase` case). -/
inductive ProviderEntry where
  | single : String → ProviderEntry
  | byMethod : List (String × String) → ProviderEntry

/-- The `providers_map` literal of `_get_integration_arguments`
(`prompt_step.py` lines 48–66), with class names for values. -/
def providers_map : List (String × ProviderEntry) :=
  [("brave", .single "BraveIntegrationDef"),
   ("dummy", .single "DummyIntegrationDef"),
   ("email", .single "EmailIntegrationDef"),
   ("spider", .single "SpiderIntegrationDef"),
   ("wikipedia", .single "WikipediaIntegrationDef"),
   ("weather", .single "WeatherIntegrationDef"),
   ("browserbase", .byMethod
     [("create_context", "BrowserbaseContextIntegrationDef"),
      ("install_extension_from_github", "BrowserbaseExtensionIntegrationDef"),
      ("list_sessions", "BrowserbaseListSessionsIntegrationDef"),
      ("create_session", "BrowserbaseCreateSessionIntegrationDef"),
      ("get_session", "BrowserbaseGetSessionIntegrationDef"),
      ("complete_session", "BrowserbaseCompleteSessionIntegrationDef"),
      ("get_live_urls", "BrowserbaseGetSessionLiveUrlsIntegrationDef"),
      ("get_connect_url", "BrowserbaseGetSessionConnectUrlIntegrationDef")]),
   ("remote_browser", .single "RemoteBrowserIntegrationDef")]

/-- The `properties` dict built by `_get_integration_arguments`
(lines 72–94): `\x7btype: "object", properties: \x7b…\x7d, required: […]\x7d`. -/
structure PropertiesSchema where
  type : String
  properties : List (String × Value)
  required : List String

/-- The initial `properties` value (lines 72–76). -/
def emptyProperties : PropertiesSchema :=
  { type := "object", properties := [], required := [] }

/-- Render the schema as the Python dict it is. -/
def PropertiesSchema.toValue (p : PropertiesSchema) : Value :=
  .vdict [("type", .vstr p.type),
          ("properties", .vdict p.properties),
          ("required", .vlist (p.required.map .vstr))]

/-- Python truthiness of an `ArgModel` value, for `if not arguments` (line
79): `None` and the empty dict are falsy; a pydantic model instance is always
truthy. -/
def ArgModel.falsy : ArgModel → Bool
  | .absent => true
  | .dict [] => true
  | _ => false

/-- Lines 79–94: turn the declared argument model into the `properties`
schema.  Each model field contributes `\x7btype: <annotation>, description:
<field name>\x7d`; the source tests `fld_annotation.is_required` without
calling it, and a bound method is always truthy, so every field lands in
`required`.  A plain dict replaces `properties` wholesale. -/
def buildProperties (a : ArgModel) : PropertiesSchema :=
  if a.falsy then emptyProperties
  else
    match a with
    | .model fields =>
        { type := "object",
          properties := fields.map fun f =>
            (f.1, Value.vdict [("type", .vstr f.2), ("description", .vstr f.1)]),
          required := fields.map Prod.fst }
    | .dict entries => { emptyProperties with properties := entries }
    | .absent => emptyProperties

/-- `_get_integration_arguments` (lines 47–94).  `providers_map.get` of an
unknown provider yields `None`, and likewise an unknown `browserbase` method;
the subsequent `integration.arguments` attribute access then raises
`AttributeError` — embedded as `Except.error .attributeError`. -/
def _get_integration_arguments (defs : String → ArgModel)
    (integ : IntegrationDef) : Except PyErr PropertiesSchema :=
  match providers_map.lookup integ.provider with
  | none => .error .attributeError
  | some (.single cls) => .ok (buildProperties (defs cls))
  | some (.byMethod methods) =>
      match (match integ.method with
             | none => none
             | some m => methods.lookup m) with
      | none => .error .attributeError
      | some cls => .ok (buildProperties (defs cls))

/-! ## Tool formatting (`prompt_step.py`, `format_tool`, lines 97–148) -/

/-- Python truthiness of a `Value`. -/
def Value.truthy : Value → Bool
  | .vnone => false
  | .vbool b => b
  | .vint n => n != 0
  | .vstr s => s != ""
  | .vlist xs => !xs.isEmpty
  | .vdict es => !es.isEmpty

/-- Python `a or b` over values. -/
def pyOr (a b : Value) : Value := if a.truthy then a else b

/-- `d.get(k)` on a dict value: the entry, or `None`. -/
def dictGet (v : Value) (k : String) : Value :=
  match v with
  | .vdict es => (es.lookup k).getD .vnone
  | _ => .vnone

/-- `tool.description` as a Python value (`None` when unset). -/
def descValue (t : Tool) : Value :=
  match t.description with
  | none => .vnone
  | some s => .vstr s

/-- The dict returned by `format_tool`: either one of the model-native shapes
(top-level `name` key) or the OpenAI function shape
`\x7btype: "function", function: \x7bname, description, parameters?\x7d\x7d`.
`parameters := none` stands for the key being absent. -/
inductive FormattedTool where
  | computerTool : (name : String) → (dw dh dn : Value) → FormattedTool
  | nativeTool : (ty : String) → (name : String) → FormattedTool
  | functionTool : (name : String) → (description : Value) →
      (parameters : Option Value) → FormattedTool

/-- The `"type"` entry of a formatted tool dict (used by the backend choice,
lines 233–235). -/
def FormattedTool.typeTag : FormattedTool → String
  | .computerTool _ _ _ _ => "computer_20241022"
  | .nativeTool ty _ => ty
  | .functionTool _ _ _ => "function"

/-- The emitted name of a formatted tool:
`fmt_tool.get("name") or fmt_tool.get("function", \x7b\x7d).get("name")`
(lines 227–230). -/
def FormattedTool.emittedName : FormattedTool → String
  | .computerTool n _ _ _ => n
  | .nativeTool _ n => n
  | .functionTool n _ _ => n

/-- `format_tool` (lines 97–148).  Dispatch is on `tool.type`, i.e. on the
patched `type_property`; the three model-native branches are therefore
unreachable (`type_property` never yields a native kind).  The `system`
branch reflects the handler through an external collaborator
(`get_handler_with_filtered_params` + langchain), abstracted as
`reflect : SystemDef → Value` returning the handler's input JSON schema.
Only the `integration` branch can fail (via
`_get_integration_arguments`). -/
def format_tool (defs : String → ArgModel) (reflect : SystemDef → Value)
    (t : Tool) : Except PyErr FormattedTool :=
  if t.type = some "computer_20241022" then
    -- `tool.computer_20241022 and tool.computer_20241022.display_width_px`:
    -- Python `and` yields None when the left side is None.
    .ok (.computerTool t.name
      (match t.computer_20241022 with
       | none => .vnone | some c => .vint c.display_width_px)
      (match t.computer_20241022 with
       | none => .vnone | some c => .vint c.display_height_px)
      (match t.computer_20241022 with
       | none => .vnone
       | some c => match c.display_number with
                   | none => .vnone | some n => .vint n))
  else if t.type = some "bash_20241022" then
    .ok (.nativeTool "bash_20241022" t.name)
  else if t.type = some "text_editor_20241022" then
    .ok (.nativeTool "text_editor_20241022" t.name)
  else if t.type = some "function" then
    .ok (.functionTool t.name (descValue t)
      (some (match t.function with
             | none => .vnone | some f => f.parameters)))
  else if t.type = some "system" then
    match t.system with
    | some sys =>
        let json_schema := reflect sys
        .ok (.functionTool t.name
          (pyOr (descValue t) (dictGet json_schema "description"))
          (some json_schema))
    | none => .ok (.functionTool t.name (descValue t) none)
  else if t.type = some "integration" then
    match t.integration with
    | some integ =>
        (_get_integration_arguments defs integ).map fun props =>
          .functionTool t.name (descValue t) (some props.toValue)
    | none => .ok (.functionTool t.name (descValue t) none)
  else if t.type = some "api_call" then
    match t.api_call with
    | some a => .ok (.functionTool t.name (descValue t) (some a.schema_))
    | none => .ok (.functionTool t.name (descValue t) none)
  else
    .ok (.functionTool t.name (descValue t) none)

/-! ## Prompt evaluation (`prompt_step.py`, lines 151–180)

The prompt string prefixed with `"$_ "` is evaluated by `base_evaluate`
(external to the sampled sources); what follows operates on the resulting
value. -/

/-- The `"$_ "` marker (`EVAL_PROMPT_PREFIX`, line 151). -/
def eval_prompt_marker : String := "$_ "

/-- Lines 172–180 applied to the evaluated prompt value: anything that is
neither a `str` nor a `list` raises, a bare string is wrapped as
`[\x7brole: "user", content: <string>\x7d]`, a list passes through
unchanged (its elements are not inspected). -/
def prompt_from_evaluated (v : Value) : Except PyErr (List Value) :=
  match v with
  | .vstr s => .ok [Value.vdict [("role", .vstr "user"), ("content", .vstr s)]]
  | .vlist xs => .ok xs
  | _ => .error (.applicationError
      "Invalid prompt expression, expected a string or list")

/-- Spec-side: a `\x7brole, content\x7d` message value. -/
def isMessageValue : Value → Bool
  | .vdict es => (es.lookup "role").isSome && (es.lookup "content").isSome
  | _ => false

/-- Spec-side: the claim's admissible evaluated prompt values — "a string or
a list of messages". -/
def specPromptValueOk (v : Value) : Bool :=
  match v with
  | .vstr _ => true
  | .vlist xs => xs.all isMessageValue
  | _ => false

/-! ## Normalized response, reverse map and tool-call re-keying
(`prompt_step.py`, lines 224–230 and 263–382) -/

/-- One entry of `message.tool_calls` as emitted by the backends:
`\x7bid?, type: "function", function: \x7bname, arguments\x7d\x7d`. -/
structure RawToolCall where
  id : Option String
  function_name : String
  function_arguments : Value

/-- A normalized message (`litellm.Message`). -/
structure LtMessage where
  role : String
  content : Option String
  tool_calls : Option (List RawToolCall)

/-- A normalized choice (`litellm.types.utils.Choices`). -/
structure LtChoice where
  message : LtMessage
  finish_reason : String

/-- The reverse map `emitted_name → original tool` (lines 227–230), built by
zipping the formatted tools with the original tools.  A Python dict keeps the
last entry for a duplicated key. -/
def tools_mapping (formatted : List FormattedTool) (orig : List Tool) :
    List (String × Tool) :=
  (formatted.zip orig).map fun p => (p.1.emittedName, p.2)

/-- Python-dict lookup over the association list: the last binding wins. -/
def dictLookupLast (m : List (String × Tool)) (k : String) : Option Tool :=
  m.reverse.lookup k

/-- A tool-call dict after the re-keying loop: either still the
`\x7btype: "function", function: …\x7d` shape, or rewritten to
`\x7btype: <ty>, <ty>: \x7bname, arguments\x7d\x7d`.  `ty` is an
`Option String` because the source writes `original_tool.type` there, which
is Python `None` for a tool whose populated variant is model-native. -/
inductive TranslatedCall where
  | functionCall : (id : Option String) → (name : String) → (args : Value) →
      TranslatedCall
  | rekeyed : (id : Option String) → (ty : Option String) → (name : String) →
      (args : Value) → TranslatedCall

/-- A raw call viewed unchanged. -/
def rawAsTranslated (c : RawToolCall) : TranslatedCall :=
  .functionCall c.id c.function_name c.function_arguments

/-- Lines 361–377: translate one tool call through the reverse map.  An
unresolved name raises `ApplicationError("Tool <name> not found")`; a
`function`-kind original leaves the call unchanged; any other original
rewrites the call, keyed by the derived `type` tag. -/
def rekey_call (mapping : List (String × Tool)) (c : RawToolCall) :
    Except PyErr TranslatedCall :=
  match dictLookupLast mapping c.function_name with
  | none => .error (.applicationError
      ("Tool " ++ c.function_name ++ " not found"))
  | some orig =>
      if orig.type = some "function" then
        .ok (.functionCall c.id c.function_name c.function_arguments)
      else
        .ok (.rekeyed c.id orig.type c.function_name c.function_arguments)

/-- A choice after re-keying. -/
structure TranslatedChoice where
  role : String
  content : Option String
  tool_calls : Option (List TranslatedCall)
  finish_reason : String

/-- Lines 357–377 for one choice: only choices with
`finish_reason == "tool_calls"` are touched; iterating an absent
`tool_calls` list would raise `TypeError` in the host language. -/
def translate_choice (mapping : List (String × Tool)) (c : LtChoice) :
    Except PyErr TranslatedChoice :=
  if c.finish_reason = "tool_calls" then
    match c.message.tool_calls with
    | none => .error .typeError
    | some calls =>
        (calls.mapM (rekey_call mapping)).map fun tc =>
          ⟨c.message.role, c.message.content, some tc, c.finish_reason⟩
  else
    .ok ⟨c.message.role, c.message.content,
         (c.message.tool_calls).map (·.map rawAsTranslated), c.finish_reason⟩

/-! ## Native-backend response normalization (`prompt_step.py`, lines 263–318) -/

/-- A content block of the native (Claude) response: `text` or `tool_use`. -/
inductive ClaudeBlock where
  | text : String → ClaudeBlock
  | toolUse : (name : String) → (input : Value) → ClaudeBlock

/-- The texts of the `text` blocks, in order. -/
def textBlocks (bs : List ClaudeBlock) : List String :=
  bs.filterMap fun b => match b with | .text s => some s | _ => none

/-- The `tool_use` blocks as function-shaped tool calls
(`ChatCompletionMessageToolCall(type="function", function=Function(name,
arguments))`, lines 285–295), in order. -/
def toolUseCalls (bs : List ClaudeBlock) : List RawToolCall :=
  bs.filterMap fun b => match b with
    | .toolUse n i => some ⟨none, n, i⟩
    | _ => none

/-- Lines 263–310: normalize the native response content into one choice.
More than one `text` block raises; `next(…, None)` picks the first `text`
block.  On `stop_reason == "tool_use"` all `tool_use` blocks become
`tool_calls` and `finish_reason` is `"tool_calls"`; otherwise the `assert`
demands a text block and `finish_reason` is `"stop"`. -/
def normalize_claude_choice (bs : List ClaudeBlock) (stop_reason : String) :
    Except PyErr LtChoice :=
  if 1 < (textBlocks bs).length then
    .error (.applicationError "Claude should only return one message")
  else
    let text_block := (textBlocks bs).head?
    if stop_reason = "tool_use" then
      .ok ⟨⟨"assistant", text_block, some (toolUseCalls bs)⟩, "tool_calls"⟩
    else
      match text_block with
      | none => .error (.assertionError
          "Claude should always return a text block for stop_reason=stop")
      | some s => .ok ⟨⟨"assistant", some s, none⟩, "stop"⟩

/-! ## Step outcome (`prompt_step.py`, lines 341–382) -/

/-- A jump target (the `next` of a `StepOutcome`); the prompt step never
constructs one. -/
structure TransitionTarget where
  workflow : String
  step : Nat

/-- The `output` of the prompt step: either the unwrapped message content or
the full normalized (re-keyed) response. -/
inductive StepOutput where
  | raw : Option String → StepOutput
  | response : List TranslatedChoice → StepOutput

/-- `StepOutcome` as returned by `prompt_step`. -/
structure StepOutcome where
  output : StepOutput
  next : Option TransitionTarget

/-- Lines 341–352, the `unwrap` path: exactly one choice is required, its
`finish_reason` must not be `"tool_calls"`, and the raw output is
`choice.message.content`. -/
def unwrap_response (choices : List LtChoice) : Except PyErr StepOutcome :=
  match choices with
  | [c] =>
      if c.finish_reason = "tool_calls" then
        .error (.applicationError "Tool calls cannot be unwrapped")
      else .ok ⟨.raw c.message.content, none⟩
  | _ => .error (.applicationError "Only one choice is supported")

/-- Lines 341–382: the tail of `prompt_step` on the normalized response —
either the unwrap path or re-keying every choice and returning the full
response. -/
def prompt_step_result (unwrap : Bool) (mapping : List (String × Tool))
    (choices : List LtChoice) : Except PyErr StepOutcome :=
  if unwrap then unwrap_response choices
  else
    (choices.mapM (translate_choice mapping)).map fun cs =>
      ⟨.response cs, none⟩

/-! ## Generic backend dispatch (`prompt_step.py`, lines 320–339) -/

/-- A formatted tool rendered as the dict it is. -/
def FormattedTool.toValue : FormattedTool → Value
  | .computerTool n dw dh dn =>
      .vdict [("type", .vstr "computer_20241022"), ("name", .vstr n),
              ("display_width_px", dw), ("display_height_px", dh),
              ("display_number", dn)]
  | .nativeTool ty n => .vdict [("type", .vstr ty), ("name", .vstr n)]
  | .functionTool n d p =>
      .vdict [("type", .vstr "function"),
              ("function", .vdict ([("name", .vstr n), ("description", d)]
                ++ (match p with
                    | none => []
                    | some pv => [("parameters", pv)])))]

/-- `d[k] = v` on an association-list dict: replace in place or append. -/
def dictSet (d : List (String × Value)) (k : String) (v : Value) :
    List (String × Value) :=
  if (d.lookup k).isSome then
    d.map fun p => if p.1 = k then (k, v) else p
  else d ++ [(k, v)]

/-- Python `\x7b**a, **b\x7d`: right side overrides. -/
def mergeDict (a b : List (String × Value)) : List (String × Value) :=
  b.foldl (fun acc kv => dictSet acc kv.1 kv.2) a

/-- Lines 320–330: the keyword dict handed to `litellm.acompletion` on the
generic path.  The source reassigns `formatted_tools = None` just before
building the dict (the FIXME at line 321), shadowing the formatted
descriptors, and then spreads the agent defaults and the step settings over
the base keys. -/
def generic_backend_data (agent_model : String)
    (formatted_tools : List FormattedTool) (prompt : List Value)
    (agent_default_settings passed_settings : List (String × Value)) :
    List (String × Value) :=
  let formatted_tools : Option (List FormattedTool) := none
  let tools_entry : Value :=
    match formatted_tools with
    | none => .vnone
    | some ts => .vlist (ts.map FormattedTool.toValue)
  mergeDict (mergeDict
    [("model", .vstr agent_model), ("tools", tools_entry),
     ("messages", .vlist prompt)]
    agent_default_settings) passed_settings

/-- Lines 332–334: the cache opt-out flag. -/
def no_cache_flag (debug disable_cache : Bool) : Bool :=
  debug || disable_cache

/-! ## Expression validation at task-definition time
(`openapi_model.py`, lines 125–159)

`validate_python_expression` calls the host parser `ast.parse(expr)` in
"exec" mode, which parses a full Python *module* — a sequence of statements,
assignment and import statements included — and raises `SyntaxError` only on
syntactically invalid text.  The parser is an external collaborator; its
outcome on a given string is embedded as `Option PyModule` (`none` standing
for `SyntaxError`). -/

/-- A Python expression node (only the shapes needed here). -/
inductive PyExprT where
  | constant : Value → PyExprT
  | name : String → PyExprT
  | binOp : String → PyExprT → PyExprT → PyExprT
  | call : PyExprT → PyExprT → PyExprT

/-- A Python statement node, as produced by `ast.parse`: an expression
statement, an assignment, or an import. -/
inductive PyStmt where
  | exprStmt : PyExprT → PyStmt
  | assign : String → PyExprT → PyStmt
  | importStmt : String → PyStmt

/-- A parsed module: the statement list (`ast.parse` in its default "exec"
mode). -/
def PyModule := List PyStmt

/-- `validate_python_expression` (lines 125–131): accepts exactly when
`ast.parse` succeeded, whatever the module contains; the error string on
failure reports the `SyntaxError`. -/
def validate_python_expression (parsed : Option PyModule) : Bool × String :=
  match parsed with
  | some _ => (true, "")
  | none => (false, "SyntaxError")

/-- `validate_evaluate_expressions` (lines 153–159): each value of the
`evaluate` map is checked with `validate_python_expression`; the first
invalid one raises `ValueError`. -/
def validate_evaluate_expressions :
    List (String × Option PyModule) → Except String Unit
  | [] => .ok ()
  | (k, e) :: rest =>
      if (validate_python_expression e).1 then
        validate_evaluate_expressions rest
      else
        .error ("Invalid Python expression in key " ++ k)

/-- Spec-side (§4.1): the expression dialect admits "literals, identifiers,
attribute/index access, arithmetic/boolean/comparison operators, function
calls …" — no statements, assignments or imports.  A whole parse is in the
dialect exactly when it is a single expression statement over those forms. -/
def exprAllowedForms : PyExprT → Bool
  | .constant _ => true
  | .name _ => true
  | .binOp _ a b => exprAllowedForms a && exprAllowedForms b
  | .call f a => exprAllowedForms f && exprAllowedForms a

/-- Spec-side: membership of a parsed module in the expression dialect. -/
def isExpressionDialect : PyModule → Bool
  | [PyStmt.exprStmt e] => exprAllowedForms e
  | _ => false

/-! ## Concrete example inputs used by the theorems below -/

/-- A tool whose only populated variant is `computer_20241022`. -/
def computerToolExample : Tool :=
  { name := "ctool", description := none,
    computer_20241022 := some ⟨1024, 768, some 1⟩ }

/-- An integration tool for the `brave` provider. -/
def braveToolExample : Tool :=
  { name := "search", description := some "brave search",
    integration := some ⟨"brave", none⟩ }

/-- Declared argument models with every integration-def class declaring
none. -/
def defsAbsent : String → ArgModel := fun _ => ArgModel.absent

/-- A model response tool call naming the computer tool. -/
def ctoolCall : RawToolCall := ⟨some "call_1", "ctool", Value.vdict []⟩

/-- A model response tool call naming the brave integration tool. -/
def searchCall : RawToolCall := ⟨some "id1", "search", Value.vstr "args"⟩

/-- A single plain-text choice. -/
def stopChoiceExample : LtChoice := ⟨⟨"assistant", some "hello", none⟩, "stop"⟩

/-- A nonempty list of formatted tools. -/
def exampleFormattedTools : List FormattedTool :=
  [.functionTool "search" (.vstr "brave search") (some emptyProperties.toValue)]

/-! ## Theorems -/

/-- C8: the persisted `Transition` record (`Executions.py`, line 86) admits
only the five type values `finish | wait | error | step | cancelled`: the
claimed `init` and `resume` transition types are rejected by the literal, so
neither the required first transition of an execution nor a resume transition
is representable in the persisted shape. -/
theorem transition_type_rejects_init_resume :
    transition_type_ok "init" = false ∧
    transition_type_ok "resume" = false ∧
    specTransitionTypes.filter transition_type_ok =
      ["step", "wait", "finish", "error", "cancelled"] ∧
    transitionTypeLiterals ≠ specTransitionTypes := by
  refine ⟨rfl, rfl, by decide, by decide⟩

/-- C9: a `Tool` whose single populated variant is the model-native
`computer_20241022` gets derived type tag `None` from `type_property`
(`openapi_model.py`, lines 94–105), not the variant's name: the property
tests only the four non-native variant fields, although `format_tool` and
the native-backend check in `prompt_step.py` dispatch on the native type
tags. -/
theorem type_property_misses_native_kinds :
    populatedVariants computerToolExample = ["computer_20241022"] ∧
    specToolKind computerToolExample = some "computer_20241022" ∧
    type_property computerToolExample = none ∧
    (∀ t : Tool, type_property t ≠ some "computer_20241022" ∧
      type_property t ≠ some "bash_20241022" ∧
      type_property t ≠ some "text_editor_20241022") := by
  refine ⟨rfl, rfl, rfl, fun t => ?_⟩
  unfold type_property
  split
  · exact ⟨by simp, by simp, by simp⟩
  · split
    · exact ⟨by simp, by simp, by simp⟩
    · split
      · exact ⟨by simp, by simp, by simp⟩
      · split
        · exact ⟨by simp, by simp, by simp⟩
        · exact ⟨by simp, by simp, by simp⟩

/-- C4: on the generic backend path (`prompt_step.py`, lines 320–339) the
`tools` entry of the completion keyword dict is always `None`, even when
formatted tool descriptors exist: the source reassigns
`formatted_tools = None` (the FIXME at line 321) before building the dict,
so the completion call never receives the formatted tools the claim
describes.  Model and messages do arrive as claimed. -/
theorem generic_backend_tools_forced_none :
    (generic_backend_data "gpt-4o" exampleFormattedTools
        [Value.vdict [("role", .vstr "user"), ("content", .vstr "hi")]]
        [] []).lookup "tools" = some Value.vnone ∧
    exampleFormattedTools ≠ [] ∧
    (generic_backend_data "gpt-4o" exampleFormattedTools
        [Value.vdict [("role", .vstr "user"), ("content", .vstr "hi")]]
        [] []).lookup "model" = some (Value.vstr "gpt-4o") := by
  refine ⟨rfl, ?_, rfl⟩
  intro h
  exact absurd (congrArg List.length h) (by decide)

/-- C5 counterexample: an integration tool whose provider (`slack`) is not in
`providers_map` does not get an empty-object-schema descriptor — the lookup
yields `None` and the `integration.arguments` access raises
`AttributeError`, so `_get_integration_arguments` and `format_tool` both
fail instead of returning a tool descriptor. -/
theorem integration_unknown_provider_fails :
    _get_integration_arguments defsAbsent ⟨"slack", none⟩ =
      .error .attributeError ∧
    format_tool defsAbsent (fun _ => Value.vnone)
      { name := "s", description := none,
        integration := some ⟨"slack", none⟩ } = .error .attributeError ∧
    _get_integration_arguments defsAbsent ⟨"browserbase", some "no_such"⟩ =
      .error .attributeError := ⟨rfl, rfl, rfl⟩

/-- C5 amended: for every integration-kind tool, the formatter yields a
function-shaped descriptor whose `parameters` field is the schema
synthesized by `_get_integration_arguments` from the provider's declared
argument model; a *known* provider (or provider/method pair) with an empty
declared argument model yields the empty object schema, while an unknown
provider (or unknown `browserbase` method) makes the whole formatting fail
with an `AttributeError` rather than producing a descriptor. -/
theorem integration_arguments_spec (defs : String → ArgModel)
    (reflect : SystemDef → Value) (t : Tool) (integ : IntegrationDef)
    (hfn : t.function = none) (hint : t.integration = some integ) :
    (format_tool defs reflect t =
      (_get_integration_arguments defs integ).map fun props =>
        .functionTool t.name (descValue t) (some props.toValue))
  ∧ (providers_map.lookup integ.provider = none →
      _get_integration_arguments defs integ = .error .attributeError)
  ∧ (∀ cls, providers_map.lookup integ.provider = some (.single cls) →
      (defs cls).falsy = true →
      _get_integration_arguments defs integ = .ok emptyProperties) := by
  refine ⟨?_, ?_, ?_⟩
  · have hty : t.type = some "integration" := by
      simp [Tool.type, type_property, hfn, hint]
    unfold format_tool
    rw [hty]
    simp [hint]
  · intro hl
    unfold _get_integration_arguments
    rw [hl]
  · intro cls hl hf
    unfold _get_integration_arguments
    rw [hl]
    simp [buildProperties, hf]

/-- C5 witness: the `brave` provider with an absent declared argument model
formats to the empty object schema. -/
theorem integration_arguments_spec_witness :
    format_tool defsAbsent (fun _ => Value.vnone) braveToolExample =
      .ok (.functionTool "search" (Value.vstr "brave search")
        (some emptyProperties.toValue)) := by
  have h := integration_arguments_spec defsAbsent (fun _ => Value.vnone)
    braveToolExample ⟨"brave", none⟩ rfl rfl
  have h2 := h.2.2 "BraveIntegrationDef" rfl rfl
  rw [h.1, h2]
  rfl

/-- C2 counterexample: a tool call resolving to the model-native
`computer_20241022` tool is rewritten with `type = None` and keyed by `None`
— not by the tool's kind `computer_20241022` as claimed — because the source
writes `original_tool.type` into the call and the derived type tag of a
model-native tool is `None`. -/
theorem rekey_native_kind_not_rekeyed_by_kind :
    rekey_call
      (tools_mapping [.computerTool "ctool" (.vint 1024) (.vint 768) .vnone]
        [computerToolExample]) ctoolCall =
      .ok (.rekeyed (some "call_1") none "ctool" (Value.vdict [])) ∧
    specToolKind computerToolExample = some "computer_20241022" :=
  ⟨rfl, rfl⟩

/-- C2 amended: each call of a `tool_calls` choice is resolved through the
reverse map (unknown names fail with the unknown-tool error); a resolved
tool whose derived type tag is `function` leaves the call unchanged; any
other resolved tool rewrites the call keyed by its derived type tag
`type_property` — which equals the tool's kind for `integration`, `system`
and `api_call` tools but is `None` for model-native tools. -/
theorem rekey_call_resolves_by_derived_type
    (mapping : List (String × Tool)) (c : RawToolCall) :
    (dictLookupLast mapping c.function_name = none →
      rekey_call mapping c = .error (.applicationError
        ("Tool " ++ c.function_name ++ " not found")))
  ∧ (∀ orig, dictLookupLast mapping c.function_name = some orig →
      type_property orig = some "function" →
      rekey_call mapping c = .ok (rawAsTranslated c))
  ∧ (∀ orig, dictLookupLast mapping c.function_name = some orig →
      type_property orig ≠ some "function" →
      rekey_call mapping c =
        .ok (.rekeyed c.id (type_property orig) c.function_name
          c.function_arguments))
  ∧ (∀ orig : Tool, orig.function = none → orig.integration.isSome →
      type_property orig = some "integration")
  ∧ (∀ orig : Tool, orig.function = none → orig.integration = none →
      orig.system.isSome → type_property orig = some "system")
  ∧ (∀ orig : Tool, orig.function = none → orig.integration = none →
      orig.system = none → orig.api_call.isSome →
      type_property orig = some "api_call") := by
  refine ⟨?_, ?_, ?_, ?_, ?_, ?_⟩
  · intro hl
    unfold rekey_call
    rw [hl]
  · intro orig hl hty
    unfold rekey_call
    rw [hl]
    simp [Tool.type, hty, rawAsTranslated]
  · intro orig hl hty
    unfold rekey_call
    rw [hl]
    simp [Tool.type, hty]
  · intro orig h1 h2
    simp [type_property, h1, h2]
  · intro orig h1 h2 h3
    simp [type_property, h1, h2, h3]
  · intro orig h1 h2 h3 h4
    simp [type_property, h1, h2, h3, h4]

/-- C2 witness: a call naming the `brave` integration tool resolves and is
rewritten keyed by the derived `integration` tag. -/
theorem rekey_call_resolves_by_derived_type_witness :
    rekey_call [("search", braveToolExample)] searchCall =
      .ok (.rekeyed (some "id1") (type_property braveToolExample) "search"
        (Value.vstr "args")) :=
  (rekey_call_resolves_by_derived_type [("search", braveToolExample)]
    searchCall).2.2.1 braveToolExample rfl (by decide)

/-- C1: with `unwrap: true` the prompt step demands exactly one choice
(otherwise `ApplicationError("Only one choice is supported")`) whose
`finish_reason` is not `"tool_calls"` (otherwise
`ApplicationError("Tool calls cannot be unwrapped")`), and returns that
choice's `message.content` as the raw output instead of the full normalized
response. -/
theorem unwrap_requires_single_text_choice
    (mapping : List (String × Tool)) (choices : List LtChoice) :
    (∀ c, choices = [c] → c.finish_reason ≠ "tool_calls" →
      prompt_step_result true mapping choices =
        .ok ⟨.raw c.message.content, none⟩)
  ∧ (∀ c, choices = [c] → c.finish_reason = "tool_calls" →
      prompt_step_result true mapping choices =
        .error (.applicationError "Tool calls cannot be unwrapped"))
  ∧ (choices.length ≠ 1 →
      prompt_step_result true mapping choices =
        .error (.applicationError "Only one choice is supported")) := by
  refine ⟨?_, ?_, ?_⟩
  · intro c hc hfr
    subst hc
    simp [prompt_step_result, unwrap_response, hfr]
  · intro c hc hfr
    subst hc
    simp [prompt_step_result, unwrap_response, hfr]
  · intro hlen
    match choices with
    | [] => simp [prompt_step_result, unwrap_response]
    | [c] => exact absurd rfl hlen
    | c1 :: c2 :: rest => simp [prompt_step_result, unwrap_response]

/-- C1 witness: a single `"stop"` choice unwraps to its content. -/
theorem unwrap_requires_single_text_choice_witness :
    prompt_step_result true [] [stopChoiceExample] =
      .ok ⟨.raw (some "hello"), none⟩ :=
  (unwrap_requires_single_text_choice [] [stopChoiceExample]).1
    stopChoiceExample rfl (by decide)

/-- C3: normalizing a native-backend response — more than one `text` block
is always an error; on `stop_reason = "tool_use"` every `tool_use` block
becomes a tool call, the optional single text becomes the content and the
finish reason is `"tool_calls"`; on any other stop reason exactly one text
block is required (none is an assertion error), its text is the content and
the finish reason is `"stop"`. -/
theorem normalize_claude_choice_spec (bs : List ClaudeBlock) (sr : String) :
    (1 < (textBlocks bs).length →
      normalize_claude_choice bs sr =
        .error (.applicationError "Claude should only return one message"))
  ∧ (sr = "tool_use" → (textBlocks bs).length ≤ 1 →
      normalize_claude_choice bs sr =
        .ok ⟨⟨"assistant", (textBlocks bs).head?, some (toolUseCalls bs)⟩,
             "tool_calls"⟩)
  ∧ (sr ≠ "tool_use" → ∀ s, textBlocks bs = [s] →
      normalize_claude_choice bs sr = .ok ⟨⟨"assistant", some s, none⟩, "stop"⟩)
  ∧ (sr ≠ "tool_use" → textBlocks bs = [] →
      normalize_claude_choice bs sr = .error (.assertionError
        "Claude should always return a text block for stop_reason=stop")) := by
  refine ⟨?_, ?_, ?_, ?_⟩
  · intro hlen
    simp [normalize_claude_choice, hlen]
  · intro hsr hlen
    subst hsr
    simp [normalize_claude_choice, Nat.not_lt.mpr hlen]
  · intro hsr s hs
    simp [normalize_claude_choice, hs, hsr]
  · intro hsr hs
    simp [normalize_claude_choice, hs, hsr]

/-- C3 witness: a text-plus-tool-use response with stop reason `tool_use`
normalizes to a `tool_calls` choice; a lone text block with another stop
reason normalizes to a `stop` choice. -/
theorem normalize_claude_choice_spec_witness :
    normalize_claude_choice
        [ClaudeBlock.text "hi", ClaudeBlock.toolUse "search" (Value.vdict [])]
        "tool_use" =
      .ok ⟨⟨"assistant", some "hi", some [⟨none, "search", Value.vdict []⟩]⟩,
           "tool_calls"⟩
  ∧ normalize_claude_choice [ClaudeBlock.text "hi"] "end_turn" =
      .ok ⟨⟨"assistant", some "hi", none⟩, "stop"⟩ :=
  ⟨(normalize_claude_choice_spec
      [ClaudeBlock.text "hi", ClaudeBlock.toolUse "search" (Value.vdict [])]
      "tool_use").2.1 rfl (by decide),
   (normalize_claude_choice_spec [ClaudeBlock.text "hi"] "end_turn").2.2.1
      (by decide) "hi" rfl⟩

/-- C6 counterexample: an evaluated prompt value that is a list of
non-messages (here `[1]`) is accepted unchanged by the step — the source
only tests `isinstance(prompt, (str, list))` — although "a list of messages"
it is not, so the claimed "if and only if" fails. -/
theorem prompt_expression_list_of_non_messages_accepted :
    prompt_from_evaluated (Value.vlist [Value.vint 1]) =
      .ok [Value.vint 1] ∧
    specPromptValueOk (Value.vlist [Value.vint 1]) = false :=
  ⟨rfl, rfl⟩

/-- C6 amended: the step fails with the invalid-prompt-expression error if
and only if the evaluated value is neither a string nor a *list* (list
elements are not inspected); a bare string is wrapped as the single
user-role message, and a list passes through unchanged. -/
theorem prompt_from_evaluated_spec (v : Value) :
    ((∃ r, prompt_from_evaluated v = .ok r) ↔
      ((∃ s, v = .vstr s) ∨ (∃ xs, v = .vlist xs)))
  ∧ (∀ s, v = .vstr s → prompt_from_evaluated v =
      .ok [Value.vdict [("role", .vstr "user"), ("content", .vstr s)]])
  ∧ (∀ xs, v = .vlist xs → prompt_from_evaluated v = .ok xs)
  ∧ (¬((∃ s, v = .vstr s) ∨ (∃ xs, v = .vlist xs)) →
      prompt_from_evaluated v = .error (.applicationError
        "Invalid prompt expression, expected a string or list")) := by
  refine ⟨⟨?_, ?_⟩, ?_, ?_, ?_⟩
  · rintro ⟨r, hr⟩
    cases v <;> simp [prompt_from_evaluated] at hr <;> simp
  · rintro (⟨s, hs⟩ | ⟨xs, hxs⟩)
    · subst hs; exact ⟨_, rfl⟩
    · subst hxs; exact ⟨_, rfl⟩
  · intro s hs; subst hs; rfl
  · intro xs hxs; subst hxs; rfl
  · intro hne
    cases v <;> simp [prompt_from_evaluated] <;> exact absurd (by simp) hne

/-- C6 witness: a bare string wraps into a single user message. -/
theorem prompt_from_evaluated_spec_witness :
    prompt_from_evaluated (Value.vstr "hi") =
      .ok [Value.vdict [("role", Value.vstr "user"),
                        ("content", Value.vstr "hi")]] :=
  (prompt_from_evaluated_spec (Value.vstr "hi")).2.1 "hi" rfl

/-- C7 counterexample: `validate_python_expression` accepts the parse of
the statement `import os` and of the assignment `x = 1` — `ast.parse`
parses full host-language modules and only a `SyntaxError` rejects — even
though neither is in the expression dialect, so statements, assignments
and imports are *not* rejected as claimed. -/
theorem validate_accepts_statements :
    validate_python_expression (some [PyStmt.importStmt "os"]) = (true, "") ∧
    isExpressionDialect [PyStmt.importStmt "os"] = false ∧
    validate_python_expression
      (some [PyStmt.assign "x" (.constant (.vint 1))]) = (true, "") ∧
    isExpressionDialect [PyStmt.assign "x" (.constant (.vint 1))] = false ∧
    validate_evaluate_expressions
      [("a", some [PyStmt.importStmt "os"])] = .ok () :=
  ⟨rfl, rfl, rfl, rfl, rfl⟩

/-- C7 amended: expression occurrences are checked only for host-language
syntactic validity — `validate_python_expression` accepts exactly the
strings that `ast.parse` parses as a module (statements, assignments
and imports included), and the `evaluate`-map validator accepts a map
exactly when every entry parses; membership in the expression dialect is not
enforced. -/
theorem validate_python_expression_spec (p : Option PyModule) :
    ((validate_python_expression p).1 = true ↔ p.isSome = true)
  ∧ (∀ m : PyModule, validate_python_expression (some m) = (true, ""))
  ∧ (∀ l : List (String × Option PyModule),
      (validate_evaluate_expressions l = .ok () ↔
        ∀ kv ∈ l, kv.2.isSome = true)) := by
  refine ⟨?_, fun m => rfl, ?_⟩
  · cases p <;> simp [validate_python_expression]
  · intro l
    induction l with
    | nil => simp [validate_evaluate_expressions]
    | cons kv rest ih =>
        cases hp : kv.2 with
        | none =>
            simp [validate_evaluate_expressions, validate_python_expression,
              hp]
        | some m =>
            simp [validate_evaluate_expressions, validate_python_expression,
              hp, ih]

/-- C7 witness: the import-statement parse is accepted by the validator. -/
theorem validate_python_expression_spec_witness :
    (validate_python_expression (some [PyStmt.importStmt "os"])).1 = true :=
  (validate_python_expression_spec (some [PyStmt.importStmt "os"])).1.mpr rfl

/-- C10: whenever the prompt step returns normally — on the unwrap path or
on the full-response path — the produced `StepOutcome` has `next = None`: a
prompt step never yields a jump target. -/
theorem prompt_step_next_none (unwrap : Bool)
    (mapping : List (String × Tool)) (choices : List LtChoice)
    (o : StepOutcome)
    (h : prompt_step_result unwrap mapping choices = .ok o) :
    o.next = none := by
  unfold prompt_step_result at h
  split at h
  · unfold unwrap_response at h
    split at h
    · split at h
      · exact absurd h (by simp)
      · cases h
        rfl
    · exact absurd h (by simp)
  · cases hm : choices.mapM (translate_choice mapping) with
    | error e =>
        rw [hm] at h
        exact absurd h (by simp [Except.map])
    | ok cs =>
        rw [hm] at h
        cases h
        rfl

/-- C10 witness: the unwrap path at a concrete single-choice response. -/
theorem prompt_step_next_none_witness :
    (⟨StepOutput.raw (some "hello"), none⟩ : StepOutcome).next = none :=
  prompt_step_next_none true [] [stopChoiceExample]
    ⟨StepOutput.raw (some "hello"), none⟩ rfl

end Julep
